import Mathlib

/-!
Verification of the Library API service (FastAPI + SQLModel + prometheus_client).

The development shallowly embeds the two source files:
* `models.py` — the `Author`, `Book`, `Comment` SQLModel tables;
* `main.py` — the CRUD route handlers, the Prometheus metrics middleware
  and the `/metrics` endpoint.

The external relational store is modelled as insertion-ordered lists of rows
together with a per-table id sequence, matching the observable behaviour of
the SQLModel session calls used by the handlers (`session.add` / `commit` /
`refresh`, `session.get`, `session.exec(select ...)` with and without a
`where` clause).  Ids are `Int` (Python `int`).  Prometheus counters and
histograms are modelled as label-indexed total functions.
-/

/-- Author row, from `models.py` lines 8-14: `id` (optional, primary key),
`name`, `surname`, `birth_date` (optional; dates are kept abstract as
strings). -/
structure Author where
  id : Option Int
  name : String
  surname : String
  birth_date : Option String
deriving DecidableEq, Repr

/-- Book row, from `models.py` lines 17-26. -/
structure Book where
  id : Option Int
  title : String
  description : Option String
  genre : Option String
  author_id : Option Int
deriving DecidableEq, Repr

/-- Comment row, from `models.py` lines 29-35. -/
structure Comment where
  id : Option Int
  content : String
  book_id : Option Int
deriving DecidableEq, Repr

/-- State of the external relational store: one insertion-ordered table per
entity plus the next value of each table's primary-key sequence. -/
structure DB where
  authors : List Author
  books : List Book
  comments : List Comment
  nextAuthorId : Int
  nextBookId : Int
  nextCommentId : Int
deriving DecidableEq, Repr

/-- Result of a route handler: a successful value, or an
`HTTPException(status_code, detail)` as raised in `main.py`. -/
inductive HandlerResult (α : Type) where
  | ok : α → HandlerResult α
  | httpError : Int → String → HandlerResult α
deriving DecidableEq, Repr

/-- Insert an Author the way `session.add` + `commit` + `refresh` does: a row
whose `id` is `None` receives the next sequence value; a row that already
carries an id is stored with that id. -/
def insertAuthor (db : DB) (a : Author) : Author × DB :=
  match a.id with
  | some _ => (a, { db with authors := db.authors ++ [a] })
  | none =>
      let stored : Author := { a with id := some db.nextAuthorId }
      (stored, { db with authors := db.authors ++ [stored],
                         nextAuthorId := db.nextAuthorId + 1 })

/-- Insert a Book (same session discipline as `insertAuthor`). -/
def insertBook (db : DB) (b : Book) : Book × DB :=
  match b.id with
  | some _ => (b, { db with books := db.books ++ [b] })
  | none =>
      let stored : Book := { b with id := some db.nextBookId }
      (stored, { db with books := db.books ++ [stored],
                         nextBookId := db.nextBookId + 1 })

/-- Insert a Comment (same session discipline as `insertAuthor`). -/
def insertComment (db : DB) (c : Comment) : Comment × DB :=
  match c.id with
  | some _ => (c, { db with comments := db.comments ++ [c] })
  | none =>
      let stored : Comment := { c with id := some db.nextCommentId }
      (stored, { db with comments := db.comments ++ [stored],
                         nextCommentId := db.nextCommentId + 1 })

/-- `POST /authors/` handler (`main.py` lines 109-114): adds the posted row,
commits, refreshes and returns the stored entity. -/
def create_author (db : DB) (author : Author) : Author × DB :=
  insertAuthor db author

/-- `POST /books/` handler (`main.py` lines 129-134). -/
def create_book (db : DB) (book : Book) : Book × DB :=
  insertBook db book

/-- `POST /comments/` handler (`main.py` lines 149-154). -/
def create_comment (db : DB) (comment : Comment) : Comment × DB :=
  insertComment db comment

/-- `GET /authors/` handler (`main.py` lines 116-119). -/
def read_authors (db : DB) : HandlerResult (List Author) :=
  .ok db.authors

/-- `GET /authors/{author_id}` handler (`main.py` lines 121-126):
`session.get(Author, author_id)` is a primary-key lookup; a missing row
raises `HTTPException(404, "Author not found")`. -/
def read_author (db : DB) (author_id : Int) : HandlerResult Author :=
  match db.authors.find? (fun a => a.id = some author_id) with
  | some a => .ok a
  | none => .httpError 404 "Author not found"

/-- `GET /books/` handler (`main.py` lines 136-139). -/
def read_books (db : DB) : HandlerResult (List Book) :=
  .ok db.books

/-- `GET /books/{book_id}` handler (`main.py` lines 141-146). -/
def read_book (db : DB) (book_id : Int) : HandlerResult Book :=
  match db.books.find? (fun b => b.id = some book_id) with
  | some b => .ok b
  | none => .httpError 404 "Book not found"

/-- `GET /comments/` handler (`main.py` lines 156-159). -/
def read_comments (db : DB) : HandlerResult (List Comment) :=
  .ok db.comments

/-- `GET /books/{book_id}/comments/` handler (`main.py` lines 161-164):
`select(Comment).where(Comment.book_id == book_id)` over the comments table;
a SQL `NULL == x` comparison is not true, so rows with `book_id` `None` never
match. -/
def read_book_comments (db : DB) (book_id : Int) : HandlerResult (List Comment) :=
  .ok (db.comments.filter (fun c => c.book_id = some book_id))

/-!
Metrics middleware (`main.py` lines 20-90).

`REQUEST_COUNT` is a Counter labelled by (method, path, status);
`REQUEST_LATENCY` a Histogram labelled by (method, path); `IN_PROGRESS` an
unlabelled Gauge.  Counters are modelled as total functions from the label
tuple to a count, the histogram keeps the list of observed durations per
label pair, and the gauge is an integer.
-/

/-- Label tuple of the `http_requests_total` counter (`main.py` lines 20-24). -/
structure Labels where
  method : String
  path : String
  status : Nat
deriving DecidableEq, Repr

/-- State of the three Prometheus collectors declared in `main.py`
lines 20-35. -/
structure Metrics where
  requestCount : Labels → Nat
  latency : String × String → List Nat
  inProgress : Int

/-- `REQUEST_COUNT.labels(...).inc()`: bump exactly the addressed series. -/
def incCounter (f : Labels → Nat) (l : Labels) : Labels → Nat :=
  fun l' => if l' = l then f l' + 1 else f l'

/-- `REQUEST_LATENCY.labels(...).observe(d)`: append an observation to the
addressed series. -/
def observeLatency (f : String × String → List Nat) (l : String × String)
    (d : Nat) : String × String → List Nat :=
  fun l' => if l' = l then f l' ++ [d] else f l'

/-- Inbound request as the middleware sees it.  `urlPath` is
`request.url.path`; `routeTemplate` is the route found in `request.scope`
after `call_next` has run — `some` of the normalized template of the matched
route, or `none` when routing matched no registered route. -/
structure Request where
  method : String
  urlPath : String
  routeTemplate : Option String
deriving DecidableEq, Repr

/-- Outcome of `await call_next(request)`: a response carrying a status code,
or an exception propagating out of the downstream handler. -/
inductive Outcome where
  | response : Nat → Outcome
  | error : String → Outcome
deriving DecidableEq, Repr

/-- Outcome delivered to the client by the middleware: the downstream
response, the downstream exception, or an exception raised inside the
instrumentation code itself. -/
inductive MWResult where
  | response : Nat → MWResult
  | handlerError : String → MWResult
  | instrumentationError : String → MWResult
deriving DecidableEq, Repr

/-- Full effect of one middleware invocation: what reaches the client, the
collector state afterwards, and the sequence of gauge deltas applied to
`IN_PROGRESS` (in program order). -/
structure MWOutput where
  result : MWResult
  metrics : Metrics
  gaugeOps : List Int

/-- Path label computed in `main.py` lines 77-78: the matched route's
normalized template, or the placeholder string when no route matched. -/
def pathLabel (req : Request) : String :=
  match req.routeTemplate with
  | some p => p
  | none => "unknown"

/-- The `prometheus_middleware` of `main.py` lines 55-90, with Python local
variable semantics made explicit.  Requests to `/metrics` are passed through
untouched.  Otherwise the gauge is incremented, `call_next` runs inside
`try`, and the `finally` block decrements the gauge, resolves the path label
and records the counter and histogram.  The local `status` is assigned only
on the success path of the `try` body; when the handler raised, the
`finally` block's read of `status` raises `UnboundLocalError`, which
replaces the propagating handler exception. -/
def prometheus_middleware (m : Metrics) (req : Request) (outcome : Outcome)
    (duration : Nat) : MWOutput :=
  if req.urlPath = "/metrics" then
    { result := match outcome with
        | .response s => .response s
        | .error e => .handlerError e
      metrics := m
      gaugeOps := [] }
  else
    let method := req.method
    let m1 : Metrics := { m with inProgress := m.inProgress + 1 }
    let statusVar : Option Nat := match outcome with
      | .response s => some s
      | .error _ => none
    let m2 : Metrics := { m1 with inProgress := m1.inProgress - 1 }
    let path := pathLabel req
    match statusVar with
    | some status =>
        let m3 : Metrics :=
          { m2 with requestCount := incCounter m2.requestCount ⟨method, path, status⟩ }
        let m4 : Metrics :=
          { m3 with latency := observeLatency m3.latency (method, path) duration }
        { result := match outcome with
            | .response s => .response s
            | .error e => .handlerError e
          metrics := m4
          gaugeOps := [1, -1] }
    | none =>
        { result := .instrumentationError
            "UnboundLocalError: cannot access local variable status"
          metrics := m2
          gaugeOps := [1, -1] }

/-- Fold the middleware's collector updates over a sequence of requests,
each given with its downstream outcome and measured duration. -/
def runRequests (m : Metrics)
    (reqs : List (Request × Outcome × Nat)) : Metrics :=
  reqs.foldl (fun acc r => (prometheus_middleware acc r.1 r.2.1 r.2.2).metrics) m

/-!
Framework path-parameter layer.  The route handlers declare `author_id: int`,
`book_id: int`; conversion of the raw path segment to `int` happens in the
framework, outside this repository's source.
-/

/-- Result of dispatching a request through the framework's parameter layer:
either a framework-generated validation error (HTTP 422) produced before the
handler runs, or the handler's own result. -/
inductive DispatchResult (α : Type) where
  | validationError : Nat → DispatchResult α
  | handled : HandlerResult α → DispatchResult α
deriving DecidableEq, Repr

/-- Modelled from the spec: the framework's decimal-integer conversion of a
raw path segment (an optional leading minus sign followed by at least one
digit); any other string is not parseable as an integer. -/
def digitVal (c : Char) : Option Nat :=
  if c.isDigit then some (c.toNat - 48) else none

/-- Modelled from the spec: decimal digits to a natural number; `none` when
the list is empty or holds a non-digit (see `digitVal`). -/
def parseNatDigits (cs : List Char) : Option Nat :=
  if cs.isEmpty then none
  else cs.foldl
    (fun acc c => acc.bind (fun n => (digitVal c).map (fun d => n * 10 + d)))
    (some 0)

/-- Modelled from the spec: conversion of a raw path segment to `int` (see
`parseNatDigits`). -/
def parseIntParam (s : String) : Option Int :=
  match s.toList with
  | '-' :: rest => (parseNatDigits rest).map (fun n => -(n : Int))
  | cs => (parseNatDigits cs).map (fun n => (n : Int))

/-- Modelled from the spec: the framework layer that converts the raw
`{author_id}` path segment for `GET /authors/{author_id}` is not part of
`src/`; per the spec's error taxonomy a malformed value yields a
framework-generated HTTP 422-equivalent ValidationError and the handler is
not invoked.  The second component counts database queries issued. -/
def dispatch_read_author (db : DB) (raw : String) : DispatchResult Author × Nat :=
  match parseIntParam raw with
  | none => (.validationError 422, 0)
  | some i => (.handled (read_author db i), 1)

/-- Modelled from the spec: the framework conversion layer for the
`{book_id}` segment of `GET /books/{book_id}/comments/` (see
`dispatch_read_author`). -/
def dispatch_read_book_comments (db : DB) (raw : String) :
    DispatchResult (List Comment) × Nat :=
  match parseIntParam raw with
  | none => (.validationError 422, 0)
  | some i => (.handled (read_book_comments db i), 1)

/-- Route table of the app: every (HTTP method, path template) registered by
a decorator in `main.py` (lines 96, 104, 109, 116, 121, 129, 136, 141, 149,
156, 161).  Note there is no GET-by-id route for comments. -/
def appRoutes : List (String × String) :=
  [("GET", "/metrics"),
   ("GET", "/"),
   ("POST", "/authors/"),
   ("GET", "/authors/"),
   ("GET", "/authors/\x7bauthor_id\x7d"),
   ("POST", "/books/"),
   ("GET", "/books/"),
   ("GET", "/books/\x7bbook_id\x7d"),
   ("POST", "/comments/"),
   ("GET", "/comments/"),
   ("GET", "/books/\x7bbook_id\x7d/comments/")]

/-- Split a character list at every path separator. -/
def splitSegs : List Char → List (List Char)
  | [] => [[]]
  | c :: rest =>
      if c = '/' then [] :: splitSegs rest
      else match splitSegs rest with
        | [] => [[c]]
        | s :: ss => (c :: s) :: ss

/-- Modelled from the spec: whether a template segment is a parameter, i.e.
enclosed in braces (glossary: a route template is the parameterized path
pattern registered with the router). -/
def isParamSeg (t : List Char) : Bool :=
  match t with
  | [] => false
  | c :: _ => c == '\x7b' && t.getLast? == some '\x7d'

/-- Modelled from the spec: one template segment against one concrete
segment — a parameter segment stands for any nonempty concrete segment, a
literal segment must match exactly. -/
def segMatches (t p : List Char) : Bool :=
  if isParamSeg t then p != ([] : List Char) else t == p

/-- Modelled from the spec: whole-template matching, segment by segment (the
router's matching is framework code outside `src/`; see `segMatches`). -/
def matchTemplate (template path : String) : Bool :=
  let ts := splitSegs template.toList
  let ps := splitSegs path.toList
  ts.length == ps.length && (List.zip ts ps).all (fun z => segMatches z.1 z.2)

/-- Routes of the app matching a given method and concrete request path. -/
def matchingRoutes (method path : String) : List (String × String) :=
  appRoutes.filter (fun r => r.1 == method && matchTemplate r.2 path)

/-!
Concrete fixtures used by witnesses and counterexamples.
-/

/-- Collector state with all series at zero and no in-flight request. -/
def emptyMetrics : Metrics :=
  { requestCount := fun _ => 0, latency := fun _ => [], inProgress := 0 }

/-- A request to `/authors/1`, matched to the author-by-id route. -/
def reqAuthorsGet : Request :=
  { method := "GET", urlPath := "/authors/1",
    routeTemplate := some "/authors/\x7bauthor_id\x7d" }

/-- A scrape request to the metrics endpoint. -/
def reqMetricsGet : Request :=
  { method := "GET", urlPath := "/metrics", routeTemplate := some "/metrics" }

/-- Two successful instrumented requests with their statuses and durations. -/
def twoAuthorReqs : List (Request × Outcome × Nat) :=
  [(reqAuthorsGet, (Outcome.response 200, 3)),
   (reqAuthorsGet, (Outcome.response 200, 5))]

/-- Fresh database: empty tables, all sequences at 1. -/
def emptyDB : DB :=
  { authors := [], books := [], comments := [],
    nextAuthorId := 1, nextBookId := 1, nextCommentId := 1 }

/-- A valid author payload without id. -/
def janeAusten : Author :=
  { id := none, name := "Jane", surname := "Austen", birth_date := none }

/-- An author payload that carries a client-supplied id. -/
def clientIdAuthor : Author :=
  { id := some 42, name := "Jane", surname := "Austen", birth_date := none }

/-- A valid book payload without id. -/
def emmaBook : Book :=
  { id := none, title := "Emma", description := none, genre := some "novel",
    author_id := some 1 }

/-- A valid comment payload without id. -/
def niceComment : Comment :=
  { id := none, content := "Great book", book_id := some 1 }

/-- Database holding exactly one author, stored with id 1. -/
def sampleDB : DB := (create_author emptyDB janeAusten).2

/-!
Theorems.  Each claim `Cn` of the specification is settled by the theorem
whose doc comment names it; helper lemmas carry no claim id.
-/

/-- Helper: one successful instrumented request changes the request counter
exactly at the label triple (method, path label, status), by one. -/
theorem requestCount_step (m : Metrics) (req : Request) (s : Nat) (d : Nat)
    (h : req.urlPath ≠ "/metrics") (L : Labels) :
    (prometheus_middleware m req (.response s) d).metrics.requestCount L
      = if L = (⟨req.method, pathLabel req, s⟩ : Labels) then m.requestCount L + 1
        else m.requestCount L := by
  simp [prometheus_middleware, h, incCounter]

/-- Helper: over a batch of successful requests that all resolve to the same
(method, path label, status) triple, that counter series grows by the batch
length. -/
theorem runRequests_count (mth p : String) (st : Nat)
    (reqs : List (Request × Outcome × Nat))
    (h : ∀ r ∈ reqs, r.1.urlPath ≠ "/metrics" ∧ r.1.method = mth
        ∧ pathLabel r.1 = p ∧ r.2.1 = Outcome.response st) :
    ∀ m : Metrics,
      (runRequests m reqs).requestCount ⟨mth, p, st⟩
        = m.requestCount ⟨mth, p, st⟩ + reqs.length := by
  induction reqs with
  | nil => intro m; simp [runRequests]
  | cons r rs ih =>
      intro m
      obtain ⟨h1, h2, h3, h4⟩ := h r (List.mem_cons_self r rs)
      have hrs : ∀ x ∈ rs, x.1.urlPath ≠ "/metrics" ∧ x.1.method = mth
          ∧ pathLabel x.1 = p ∧ x.2.1 = Outcome.response st :=
        fun x hx => h x (List.mem_cons_of_mem r hx)
      have step : runRequests m (r :: rs)
          = runRequests ((prometheus_middleware m r.1 r.2.1 r.2.2).metrics) rs := rfl
      rw [step, ih hrs, h4, requestCount_step m r.1 st r.2.2 h1]
      simp [h2, h3]
      omega

/-- C1: the claim says an instrumented request whose downstream handler
raises still delivers the handler's own outcome, never an instrumentation
error.  The code violates this: the `finally` block reads the local `status`
that the failed `try` body never assigned, so the middleware raises
`UnboundLocalError` and that error — not the handler's — reaches the caller.
Evaluated at the failing input: a GET to `/authors/1` whose handler raises a
database error. -/
theorem c1_handler_error_masks_outcome :
    (prometheus_middleware emptyMetrics reqAuthorsGet
        (Outcome.error "database connection failed") 3).result
      = MWResult.instrumentationError
          "UnboundLocalError: cannot access local variable status"
    ∧ (prometheus_middleware emptyMetrics reqAuthorsGet
        (Outcome.error "database connection failed") 3).result
      ≠ MWResult.handlerError "database connection failed" := by
  exact ⟨rfl, by decide⟩

/-- C2: for every request to an instrumented (non-`/metrics`) path, the
in-progress gauge is incremented exactly once on entry and decremented
exactly once on exit — the gauge-delta trace is `[+1, -1]` — on every
outcome, response or handler error, and the gauge ends at its pre-request
value. -/
theorem c2_gauge_balanced (m : Metrics) (req : Request) (o : Outcome) (d : Nat)
    (h : req.urlPath ≠ "/metrics") :
    (prometheus_middleware m req o d).gaugeOps = [1, -1]
    ∧ (prometheus_middleware m req o d).metrics.inProgress = m.inProgress := by
  cases o <;> simp [prometheus_middleware, h]

/-- Witness for `c2_gauge_balanced` at a concrete request whose handler
errors. -/
theorem c2_gauge_balanced_witness :
    reqAuthorsGet.urlPath ≠ "/metrics"
    ∧ ((prometheus_middleware emptyMetrics reqAuthorsGet (Outcome.error "boom") 2).gaugeOps
        = [1, -1]
      ∧ (prometheus_middleware emptyMetrics reqAuthorsGet
          (Outcome.error "boom") 2).metrics.inProgress = emptyMetrics.inProgress) :=
  ⟨by decide, c2_gauge_balanced emptyMetrics reqAuthorsGet (Outcome.error "boom") 2 (by decide)⟩

/-- C7: a request whose path is `/metrics` is passed through with no
recording at all: the collector state is returned unchanged and no gauge
operation runs. -/
theorem c7_metrics_path_skipped (m : Metrics) (req : Request) (o : Outcome) (d : Nat)
    (h : req.urlPath = "/metrics") :
    (prometheus_middleware m req o d).metrics = m
    ∧ (prometheus_middleware m req o d).gaugeOps = [] := by
  cases o <;> simp [prometheus_middleware, h]

/-- Witness for `c7_metrics_path_skipped` at a concrete scrape request. -/
theorem c7_metrics_path_skipped_witness :
    reqMetricsGet.urlPath = "/metrics"
    ∧ ((prometheus_middleware emptyMetrics reqMetricsGet (Outcome.response 200) 1).metrics
        = emptyMetrics
      ∧ (prometheus_middleware emptyMetrics reqMetricsGet
          (Outcome.response 200) 1).gaugeOps = []) :=
  ⟨rfl, c7_metrics_path_skipped emptyMetrics reqMetricsGet (Outcome.response 200) 1 rfl⟩

/-- C8: on a successful instrumented request the counter and histogram are
recorded under the path label computed from the route matched in the request
scope after the handler ran: the route's normalized template when one
matched, the placeholder string "unknown" when none did. -/
theorem c8_path_label (m : Metrics) (req : Request) (s : Nat) (d : Nat)
    (h : req.urlPath ≠ "/metrics") :
    ((prometheus_middleware m req (.response s) d).metrics.requestCount
        = incCounter m.requestCount ⟨req.method, pathLabel req, s⟩)
    ∧ ((prometheus_middleware m req (.response s) d).metrics.latency
        = observeLatency m.latency (req.method, pathLabel req) d)
    ∧ (req.routeTemplate = none → pathLabel req = "unknown")
    ∧ (∀ t, req.routeTemplate = some t → pathLabel req = t) := by
  refine ⟨by simp [prometheus_middleware, h], by simp [prometheus_middleware, h], ?_, ?_⟩
  · intro h2; simp [pathLabel, h2]
  · intro t h2; simp [pathLabel, h2]

/-- Witness for `c8_path_label` at a concrete matched request. -/
theorem c8_path_label_witness :
    reqAuthorsGet.urlPath ≠ "/metrics"
    ∧ (prometheus_middleware emptyMetrics reqAuthorsGet
        (Outcome.response 200) 3).metrics.requestCount
      = incCounter emptyMetrics.requestCount ⟨"GET", "/authors/\x7bauthor_id\x7d", 200⟩
    ∧ pathLabel reqAuthorsGet = "/authors/\x7bauthor_id\x7d" := by
  refine ⟨by decide, ?_, ?_⟩
  · exact (c8_path_label emptyMetrics reqAuthorsGet 200 3 (by decide)).1
  · exact (c8_path_label emptyMetrics reqAuthorsGet 200 3 (by decide)).2.2.2
      "/authors/\x7bauthor_id\x7d" rfl

/-- C9: starting from a zeroed series, N successful instrumented requests
that share one (method, route template, status) triple leave that counter
series at N, and each single successful request increments exactly its own
series by one, leaving every other series unchanged. -/
theorem c9_counter_counts (m : Metrics) (reqs : List (Request × Outcome × Nat))
    (mth p : String) (st : Nat)
    (h : ∀ r ∈ reqs, r.1.urlPath ≠ "/metrics" ∧ r.1.method = mth
        ∧ pathLabel r.1 = p ∧ r.2.1 = Outcome.response st)
    (h0 : m.requestCount ⟨mth, p, st⟩ = 0) :
    (runRequests m reqs).requestCount ⟨mth, p, st⟩ = reqs.length
    ∧ ∀ (m' : Metrics) (req : Request) (d : Nat), req.urlPath ≠ "/metrics" →
        ((prometheus_middleware m' req (.response st) d).metrics.requestCount
            ⟨req.method, pathLabel req, st⟩
          = m'.requestCount ⟨req.method, pathLabel req, st⟩ + 1
        ∧ ∀ L, L ≠ (⟨req.method, pathLabel req, st⟩ : Labels) →
            (prometheus_middleware m' req (.response st) d).metrics.requestCount L
              = m'.requestCount L) := by
  constructor
  · rw [runRequests_count mth p st reqs h m, h0]
    omega
  · intro m' req d hreq
    constructor
    · rw [requestCount_step m' req st d hreq]; simp
    · intro L hL
      rw [requestCount_step m' req st d hreq]
      simp [hL]

/-- Witness for `c9_counter_counts`: two successful author-route requests
from zeroed collectors leave the series at 2. -/
theorem c9_counter_counts_witness :
    ((∀ r ∈ twoAuthorReqs, r.1.urlPath ≠ "/metrics" ∧ r.1.method = "GET"
        ∧ pathLabel r.1 = "/authors/\x7bauthor_id\x7d" ∧ r.2.1 = Outcome.response 200)
     ∧ emptyMetrics.requestCount ⟨"GET", "/authors/\x7bauthor_id\x7d", 200⟩ = 0)
    ∧ (runRequests emptyMetrics twoAuthorReqs).requestCount
        ⟨"GET", "/authors/\x7bauthor_id\x7d", 200⟩ = 2 := by
  refine ⟨⟨by decide, rfl⟩, ?_⟩
  exact (c9_counter_counts emptyMetrics twoAuthorReqs "GET"
    "/authors/\x7bauthor_id\x7d" 200 (by decide) rfl).1

/-- C10: a GET-by-id or book-comments request whose path parameter is not
parseable as an integer is answered by the framework's validation error
(HTTP 422); the handler issues no database query and the stored data is
never consulted. -/
theorem c10_invalid_param (db db' : DB) (raw : String)
    (h : parseIntParam raw = none) :
    dispatch_read_author db raw = (.validationError 422, 0)
    ∧ dispatch_read_book_comments db raw = (.validationError 422, 0)
    ∧ dispatch_read_author db raw = dispatch_read_author db' raw
    ∧ dispatch_read_book_comments db raw = dispatch_read_book_comments db' raw := by
  simp [dispatch_read_author, dispatch_read_book_comments, h]

/-- Witness for `c10_invalid_param` at the raw segment "abc". -/
theorem c10_invalid_param_witness :
    parseIntParam "abc" = none
    ∧ dispatch_read_author emptyDB "abc" = (.validationError 422, 0) :=
  ⟨by decide, (c10_invalid_param emptyDB sampleDB "abc" (by decide)).1⟩

/-- Helper: appending a row that satisfies the predicate to a table where no
row satisfies it makes `find?` return exactly that row. -/
theorem find_append_fresh {α : Type} (p : α → Bool) (x : α) :
    ∀ l : List α, (∀ a ∈ l, p a = false) → p x = true →
      (l ++ [x]).find? p = some x := by
  intro l
  induction l with
  | nil =>
      intro _ hx
      rw [List.nil_append, List.find?_cons_of_pos _ hx]
  | cons a as ih =>
      intro hl hx
      have ha : ¬ p a = true := by
        simp [hl a (List.mem_cons_self a as)]
      rw [List.cons_append, List.find?_cons_of_neg _ ha]
      exact ih (fun b hb => hl b (List.mem_cons_of_mem a hb)) hx

/-- C3 counterexample: the claim quantifies over E in Author, Book, Comment,
but the app registers no GET-by-id route for comments.  After POSTing a
valid comment into a fresh database the assigned id is 1, yet no route of
the app matches a GET of `/comments/1`: the framework rejects the request
before any handler, so the GET of the claim cannot return the stored
comment. -/
theorem c3_counterexample :
    (create_comment emptyDB niceComment).1.id = some 1
    ∧ matchingRoutes "GET" "/comments/1" = [] := by
  exact ⟨rfl, by decide⟩

/-- C3 (amended): for Author and Book, POST followed by GET-by-returned-id
returns exactly the stored entity carrying the assigned id; Comment has no
GET-by-id route, and the stored comment is instead returned by the comment
collection read.  Hypotheses: the payload carries no id (the spec's "entity
payload without id") and the table's next sequence value names no existing
row. -/
theorem c3_post_then_get (db : DB) (pa : Author) (pb : Book) (pc : Comment)
    (hpa : pa.id = none) (hpb : pb.id = none) (hpc : pc.id = none)
    (hfa : ∀ a ∈ db.authors, a.id ≠ some db.nextAuthorId)
    (hfb : ∀ b ∈ db.books, b.id ≠ some db.nextBookId) :
    ((create_author db pa).1.id = some db.nextAuthorId
     ∧ read_author (create_author db pa).2 db.nextAuthorId
         = .ok (create_author db pa).1)
    ∧ ((create_book db pb).1.id = some db.nextBookId
     ∧ read_book (create_book db pb).2 db.nextBookId
         = .ok (create_book db pb).1)
    ∧ ((create_comment db pc).1.id = some db.nextCommentId
     ∧ read_comments (create_comment db pc).2
         = .ok (db.comments ++ [(create_comment db pc).1])) := by
  refine ⟨⟨?_, ?_⟩, ⟨?_, ?_⟩, ⟨?_, ?_⟩⟩
  · simp [create_author, insertAuthor, hpa]
  · simp only [create_author, insertAuthor, hpa]
    unfold read_author
    rw [find_append_fresh _ _ db.authors
      (fun a ha => by simpa using hfa a ha) (by simp)]
  · simp [create_book, insertBook, hpb]
  · simp only [create_book, insertBook, hpb]
    unfold read_book
    rw [find_append_fresh _ _ db.books
      (fun b hb => by simpa using hfb b hb) (by simp)]
  · simp [create_comment, insertComment, hpc]
  · simp [create_comment, insertComment, hpc, read_comments]

/-- Witness for `c3_post_then_get`: POSTing a valid author into the fresh
database and GETting the returned id yields the stored author. -/
theorem c3_post_then_get_witness :
    (janeAusten.id = none ∧ ∀ a ∈ emptyDB.authors, a.id ≠ some emptyDB.nextAuthorId)
    ∧ read_author (create_author emptyDB janeAusten).2 emptyDB.nextAuthorId
        = .ok (create_author emptyDB janeAusten).1 := by
  refine ⟨⟨rfl, by decide⟩, ?_⟩
  exact (c3_post_then_get emptyDB janeAusten emmaBook niceComment rfl rfl rfl
    (by decide) (by decide)).1.2

/-- C4: for authors and books, GET-by-id is sound (an `ok` answer is a
stored row carrying exactly the requested id), complete (the unique stored
row with the id is returned), and total on misses (no row with the id means
HTTP 404 with the handler's message). -/
theorem c4_get_by_id (db : DB) (idv : Int) :
    ((∀ a, read_author db idv = .ok a → a ∈ db.authors ∧ a.id = some idv)
     ∧ (∀ a, a ∈ db.authors → a.id = some idv →
          (∀ a' ∈ db.authors, a'.id = some idv → a' = a) →
          read_author db idv = .ok a)
     ∧ ((∀ a ∈ db.authors, a.id ≠ some idv) →
          read_author db idv = .httpError 404 "Author not found"))
    ∧ ((∀ b, read_book db idv = .ok b → b ∈ db.books ∧ b.id = some idv)
     ∧ (∀ b, b ∈ db.books → b.id = some idv →
          (∀ b' ∈ db.books, b'.id = some idv → b' = b) →
          read_book db idv = .ok b)
     ∧ ((∀ b ∈ db.books, b.id ≠ some idv) →
          read_book db idv = .httpError 404 "Book not found")) := by
  constructor
  · refine ⟨?_, ?_, ?_⟩
    · intro a ha
      unfold read_author at ha
      split at ha
      next b hfind =>
        cases ha
        exact ⟨List.mem_of_find?_eq_some hfind, by simpa using List.find?_some hfind⟩
      next => simp at ha
    · intro a hmem hid huniq
      unfold read_author
      split
      next b hfind =>
        rw [huniq b (List.mem_of_find?_eq_some hfind)
          (by simpa using List.find?_some hfind)]
      next hfind =>
        rw [List.find?_eq_none] at hfind
        exact absurd (by simpa using hid) (by simpa using hfind a hmem)
    · intro hnone
      unfold read_author
      split
      next b hfind =>
        exact absurd (by simpa using List.find?_some hfind)
          (hnone b (List.mem_of_find?_eq_some hfind))
      next => rfl
  · refine ⟨?_, ?_, ?_⟩
    · intro b hb
      unfold read_book at hb
      split at hb
      next x hfind =>
        cases hb
        exact ⟨List.mem_of_find?_eq_some hfind, by simpa using List.find?_some hfind⟩
      next => simp at hb
    · intro b hmem hid huniq
      unfold read_book
      split
      next x hfind =>
        rw [huniq x (List.mem_of_find?_eq_some hfind)
          (by simpa using List.find?_some hfind)]
      next hfind =>
        rw [List.find?_eq_none] at hfind
        exact absurd (by simpa using hid) (by simpa using hfind b hmem)
    · intro hnone
      unfold read_book
      split
      next x hfind =>
        exact absurd (by simpa using List.find?_some hfind)
          (hnone x (List.mem_of_find?_eq_some hfind))
      next => rfl

/-- Witness for `c4_get_by_id`: in the database holding only author 1, a GET
of author 99 answers 404. -/
theorem c4_get_by_id_witness :
    (∀ a ∈ sampleDB.authors, a.id ≠ some 99)
    ∧ read_author sampleDB 99 = .httpError 404 "Author not found" := by
  refine ⟨by decide, ?_⟩
  exact (c4_get_by_id sampleDB 99).1.2.2 (by decide)

/-- C5: the book-comments read always succeeds with exactly the stored
comments whose book_id equals the given id, as a sublist of the comment
table (insertion order), an empty list when none match, independent of
whether any book with that id exists (the books table is never consulted). -/
theorem c5_book_comments (db : DB) (bid : Int) :
    ∃ l, read_book_comments db bid = .ok l
      ∧ (∀ c ∈ l, c.book_id = some bid)
      ∧ (∀ c ∈ db.comments, c.book_id = some bid → c ∈ l)
      ∧ l.Sublist db.comments
      ∧ ((∀ c ∈ db.comments, c.book_id ≠ some bid) → l = [])
      ∧ (∀ books', read_book_comments { db with books := books' } bid
          = read_book_comments db bid) := by
  refine ⟨db.comments.filter (fun c => c.book_id = some bid),
    rfl, ?_, ?_, ?_, ?_, fun _ => rfl⟩
  · intro c hc
    simpa using List.of_mem_filter hc
  · intro c hc h
    exact List.mem_filter.mpr ⟨hc, by simpa using h⟩
  · exact List.filter_sublist db.comments
  · intro h
    rw [List.filter_eq_nil_iff]
    intro c hc
    simpa using h c hc

/-- Witness for `c5_book_comments`: no comment is stored for book 7, so the
read answers the empty list, not an error. -/
theorem c5_book_comments_witness :
    (∀ c ∈ sampleDB.comments, c.book_id ≠ some 7)
    ∧ ∃ l, read_book_comments sampleDB 7 = .ok l ∧ l = [] := by
  refine ⟨by decide, ?_⟩
  obtain ⟨l, h1, _, _, _, h5, _⟩ := c5_book_comments sampleDB 7
  exact ⟨l, h1, h5 (by decide)⟩

/-- C6 counterexample: the claim says a client-supplied id in the payload
has no effect on the stored id.  In the code the POST payload model carries
the optional primary key, and a payload with `id = 42` is stored with id 42
while the same payload without id is stored with the sequence value 1. -/
theorem c6_counterexample :
    (create_author emptyDB clientIdAuthor).1.id = some 42
    ∧ (create_author emptyDB { clientIdAuthor with id := none }).1.id = some 1
    ∧ some (42 : Int) ≠ some (1 : Int) := by
  exact ⟨rfl, rfl, by decide⟩

/-- C6 (amended): when the payload carries no id, the stored id is assigned
by the persistence layer — the table's next sequence value, which then
advances — and creation only appends, leaving every existing row (hence
every already-assigned id) unchanged; no update or delete operation exists.
A payload that does carry an id, however, is stored under that id. -/
theorem c6_id_assignment (db : DB) (pa : Author) (pb : Book) (pc : Comment)
    (hpa : pa.id = none) (hpb : pb.id = none) (hpc : pc.id = none) :
    ((create_author db pa).1.id = some db.nextAuthorId
     ∧ (create_author db pa).2.authors = db.authors ++ [(create_author db pa).1]
     ∧ (create_author db pa).2.nextAuthorId = db.nextAuthorId + 1)
    ∧ ((create_book db pb).1.id = some db.nextBookId
     ∧ (create_book db pb).2.books = db.books ++ [(create_book db pb).1]
     ∧ (create_book db pb).2.nextBookId = db.nextBookId + 1)
    ∧ ((create_comment db pc).1.id = some db.nextCommentId
     ∧ (create_comment db pc).2.comments = db.comments ++ [(create_comment db pc).1]
     ∧ (create_comment db pc).2.nextCommentId = db.nextCommentId + 1) := by
  simp [create_author, insertAuthor, hpa, create_book, insertBook, hpb,
    create_comment, insertComment, hpc]

/-- Witness for `c6_id_assignment`: the id-less author payload is stored
under the fresh database's first sequence value. -/
theorem c6_id_assignment_witness :
    janeAusten.id = none
    ∧ (create_author emptyDB janeAusten).1.id = some emptyDB.nextAuthorId := by
  refine ⟨rfl, ?_⟩
  exact (c6_id_assignment emptyDB janeAusten emmaBook niceComment rfl rfl rfl).1.1
